import Mathlib

/-!
Shallow embedding of the Academic Search URL Generator
(`scripts/modules/search-generator.js` and `scripts/modules/ui-manager.js`):
the query data model, the two target-specific URL serializers, the
validator, and the UI state transitions that switch the active database.
String primitives of the JavaScript runtime (`String.prototype.trim`,
`encodeURIComponent`, `URLSearchParams` serialization, `Array.prototype.join`)
are modelled explicitly so that every serializer is an executable Lean
function on the same data the source manipulates.
-/

/-- Bytes of the UTF-8 encoding of a Unicode code point, as natural numbers. -/
def utf8Bytes (n : Nat) : List Nat :=
  if n < 128 then [n]
  else if n < 2048 then [192 + n / 64, 128 + n % 64]
  else if n < 65536 then [224 + n / 4096, 128 + n / 64 % 64, 128 + n % 64]
  else [240 + n / 262144, 128 + n / 4096 % 64, 128 + n / 64 % 64, 128 + n % 64]

/-- Uppercase hexadecimal digit for a value below 16. -/
def hexDigit (n : Nat) : Char := Char.ofNat (if n < 10 then 48 + n else 55 + n)

/-- Percent-encoding of one byte: a percent sign followed by two uppercase hex digits. -/
def percentEncodeByte (b : Nat) : List Char := [Char.ofNat 37, hexDigit (b / 16), hexDigit (b % 16)]

/-- Characters left intact by JavaScript `encodeURIComponent`:
ASCII alphanumerics and `- _ . ! ~ * ' ( )`. -/
def isURIUnreservedChar (c : Char) : Bool :=
  let n := c.toNat
  (48 ≤ n && n ≤ 57) || (65 ≤ n && n ≤ 90) || (97 ≤ n && n ≤ 122) ||
    n == 45 || n == 95 || n == 46 || n == 33 || n == 126 || n == 42 ||
    n == 39 || n == 40 || n == 41

/-- Model of JavaScript `encodeURIComponent`: unreserved characters are kept,
every other character is replaced by the percent-encoding of its UTF-8 bytes. -/
def encodeURIComponent (s : String) : String :=
  String.mk ((s.data.map fun c =>
    if isURIUnreservedChar c then [c]
    else ((utf8Bytes c.toNat).map percentEncodeByte).flatten).flatten)

/-- Characters left intact by the `application/x-www-form-urlencoded` serializer
used by `URLSearchParams.toString()`: ASCII alphanumerics and `* - . _`. -/
def isFormUnreservedChar (c : Char) : Bool :=
  let n := c.toNat
  (48 ≤ n && n ≤ 57) || (65 ≤ n && n ≤ 90) || (97 ≤ n && n ≤ 122) ||
    n == 42 || n == 45 || n == 46 || n == 95

/-- Model of the `application/x-www-form-urlencoded` value serializer of
`URLSearchParams.toString()`: unreserved characters are kept, a space becomes
`+`, every other character is percent-encoded per UTF-8 byte. -/
def formEncode (s : String) : String :=
  String.mk ((s.data.map fun c =>
    if isFormUnreservedChar c then [c]
    else if c.toNat == 32 then [Char.ofNat 43]
    else ((utf8Bytes c.toNat).map percentEncodeByte).flatten).flatten)

/-- Whitespace characters removed by JavaScript `String.prototype.trim`
(ECMAScript WhiteSpace and LineTerminator code points). -/
def isJSWhitespace (c : Char) : Bool :=
  let n := c.toNat
  (9 ≤ n && n ≤ 13) || n == 32 || n == 160 || n == 5760 ||
    (8192 ≤ n && n ≤ 8202) || n == 8232 || n == 8233 || n == 8239 ||
    n == 8287 || n == 12288 || n == 65279

/-- Model of JavaScript `String.prototype.trim`: strips leading and trailing
whitespace characters. -/
def jsTrim (s : String) : String :=
  String.mk (((s.data.dropWhile isJSWhitespace).reverse.dropWhile isJSWhitespace).reverse)

/-- Model of JavaScript `Array.prototype.join`: elements interleaved with a
separator, the empty list giving the empty string. -/
def joinSep (sep : String) : List String → String
  | [] => ""
  | [s] => s
  | s :: rest => s ++ sep ++ joinSep sep rest

/-- Serialization of a `URLSearchParams` entry list by `toString()`:
`key=value` pairs, each side form-encoded, joined with `&`. -/
def paramsToString (ps : List (String × String)) : String :=
  joinSep "&" (ps.map fun p => formEncode p.1 ++ "=" ++ formEncode p.2)

/-- Lookup of `URLSearchParams.get`: the value of the first entry with the
given key. -/
def getParam (ps : List (String × String)) (key : String) : Option String :=
  (ps.find? fun p => p.1 == key).map Prod.snd

/-- Model of `URLSearchParams.set`: replaces the value of an existing key in
place, or appends the pair when the key is absent. -/
def setParam (ps : List (String × String)) (key value : String) : List (String × String) :=
  if ps.any (fun p => p.1 == key) then
    ps.map fun p => if p.1 == key then (key, value) else p
  else ps ++ [(key, value)]

/-- One term group of the query model: a metadata field, an intra-group
boolean operator and the ordered raw search terms (`ui-manager.js`
`addTermGroup`, minus the DOM-only `id`). -/
structure TermGroup where
  searchField : String
  operator : String
  terms : List String

/-- The form-data snapshot handed to the generator (`ui-manager.js`
constructor): active database, term groups, year range, currently selected
field and page size. -/
structure FormData where
  database : String
  searchTerms : List TermGroup
  startYear : Int
  endYear : Int
  searchField : String
  resultsPerPage : Nat

/-- Validation report returned by `validateFormData`. -/
structure ValidationResult where
  isValid : Bool
  errors : List String
  warnings : List String

/-- IEEE atomic clause of `buildIEEEQueryText`:
`("<field>":"<trimmed term>")`. -/
def ieeeTermClause (g : TermGroup) (term : String) : String :=
  "(\"" ++ g.searchField ++ "\":\"" ++ jsTrim term ++ "\")"

/-- Per-group clause of `buildIEEEQueryText`: blank terms dropped, remaining
clauses joined with the group's operator, the non-empty result wrapped in
parentheses. -/
def ieeeGroupClause (g : TermGroup) : String :=
  let terms := joinSep (" " ++ g.operator ++ " ")
    ((g.terms.filter fun t => jsTrim t != "").map (ieeeTermClause g))
  if terms == "" then "" else "(" ++ terms ++ ")"

/-- The pre-encoding IEEE boolean expression (`fullQuery` in
`buildIEEEQueryText`): non-empty group clauses joined with `AND`. -/
def ieeeFullQuery (searchTerms : List TermGroup) : String :=
  joinSep " AND " ((searchTerms.map ieeeGroupClause).filter fun s => s != "")

/-- Embedding of `buildIEEEQueryText`: the empty string when no group
produced a clause, otherwise the percent-encoded joined expression. -/
def buildIEEEQueryText (searchTerms : List TermGroup) : String :=
  let termGroups := (searchTerms.map ieeeGroupClause).filter fun s => s != ""
  if termGroups.length == 0 then ""
  else encodeURIComponent (joinSep " AND " termGroups)

/-- Scopus atomic clause of `buildScopusQuery`: `<FIELD>("<trimmed term>")`. -/
def scopusTermClause (g : TermGroup) (term : String) : String :=
  g.searchField ++ "(\"" ++ jsTrim term ++ "\")"

/-- Per-group clause of `buildScopusQuery`. -/
def scopusGroupClause (g : TermGroup) : String :=
  let terms := joinSep (" " ++ g.operator ++ " ")
    ((g.terms.filter fun t => jsTrim t != "").map (scopusTermClause g))
  if terms == "" then "" else "(" ++ terms ++ ")"

/-- The pre-encoding Scopus boolean expression (`fullQuery` in
`buildScopusQuery`). -/
def scopusFullQuery (searchTerms : List TermGroup) : String :=
  joinSep " AND " ((searchTerms.map scopusGroupClause).filter fun s => s != "")

/-- Embedding of `buildScopusQuery`. -/
def buildScopusQuery (searchTerms : List TermGroup) : String :=
  let termGroups := (searchTerms.map scopusGroupClause).filter fun s => s != ""
  if termGroups.length == 0 then ""
  else encodeURIComponent (joinSep " AND " termGroups)

/-- Base endpoint of the IEEE Xplore serializer. -/
def ieeeBaseURL : String := "https://ieeexplore.ieee.org/search/searchresult.jsp"

/-- Base endpoint of the Scopus serializer. -/
def scopusBaseURL : String := "https://www.scopus.com/results/results.uri"

/-- The `URLSearchParams` entries built by `generateIEEEURL`. -/
def ieeeParams (formData : FormData) : List (String × String) :=
  [("action", "search"),
   ("newsearch", "true"),
   ("matchBoolean", "true"),
   ("queryText", buildIEEEQueryText formData.searchTerms),
   ("ranges", toString formData.startYear ++ "_" ++ toString formData.endYear ++ "_Year")]

/-- Embedding of `generateIEEEURL`. -/
def generateIEEEURL (formData : FormData) : String :=
  ieeeBaseURL ++ "?" ++ paramsToString (ieeeParams formData)

/-- The year-range clause appended by `generateScopusURL`:
`AND PUBYEAR > <startYear> AND PUBYEAR < <endYear + 1>`. -/
def scopusYearClause (formData : FormData) : String :=
  "AND PUBYEAR > " ++ toString formData.startYear ++
    " AND PUBYEAR < " ++ toString (formData.endYear + 1)

/-- The initial `URLSearchParams` entries of `generateScopusURL`, before the
year clause is appended to `s`. -/
def scopusBaseParams (formData : FormData) : List (String × String) :=
  [("sort", "plf-f"),
   ("src", "s"),
   ("sot", "a"),
   ("sdt", "a"),
   ("sl", "211"),
   ("s", buildScopusQuery formData.searchTerms),
   ("origin", "searchadvanced"),
   ("editSaveSearch", ""),
   ("limit", toString formData.resultsPerPage)]

/-- The final `URLSearchParams` entries of `generateScopusURL`: the encoded
year clause is appended, space-separated, to the existing `s` value via
`params.get` and `params.set`. -/
def scopusParams (formData : FormData) : List (String × String) :=
  setParam (scopusBaseParams formData) "s"
    (((getParam (scopusBaseParams formData) "s").getD "") ++ " " ++
      encodeURIComponent (scopusYearClause formData))

/-- Embedding of `generateScopusURL`. -/
def generateScopusURL (formData : FormData) : String :=
  scopusBaseURL ++ "?" ++ paramsToString (scopusParams formData)

/-- The stateful generator object of `search-generator.js`: its only instance
state is `currentDatabase` (initialized to `ieee`, reassigned by
`setDatabase`). -/
structure SearchURLGenerator where
  currentDatabase : String

/-- Embedding of `SearchURLGenerator.setDatabase`: overwrites the stored
database tag. -/
def setDatabase (_g : SearchURLGenerator) (database : String) : SearchURLGenerator :=
  ⟨database⟩

/-- Embedding of `SearchURLGenerator.generateURL`: switches on the stored
`currentDatabase`; the `default` branch throws
`Error('Unsupported database type')`, modelled as `Except.error`. -/
def generateURL (g : SearchURLGenerator) (formData : FormData) : Except String String :=
  if g.currentDatabase == "ieee" then Except.ok (generateIEEEURL formData)
  else if g.currentDatabase == "scopus" then Except.ok (generateScopusURL formData)
  else Except.error "Unsupported database type"

/-- Total count of non-blank terms across all groups (the `totalTerms`
reduction inside `validateFormData`). -/
def totalNonBlankTerms (fd : FormData) : Nat :=
  fd.searchTerms.foldl (fun total g => total + (g.terms.filter fun t => jsTrim t != "").length) 0

/-- Embedding of `validateFormData`: content error, year-ordering error,
year-plausibility warning and query-size warning, with
`isValid = (errors.length == 0)`. -/
def validateFormData (fd : FormData) : ValidationResult :=
  let hasValidTerms := fd.searchTerms.any fun g => g.terms.any fun t => jsTrim t != ""
  let errors :=
    (if hasValidTerms then [] else ["At least one search term is required"]) ++
    (if fd.startYear > fd.endYear then ["Start year must be less than or equal to end year"] else [])
  let warnings :=
    (if fd.startYear < 1900 ∨ fd.endYear > 2030 then ["Year range should be between 1900 and 2030"] else []) ++
    (if totalNonBlankTerms fd > 20 then ["Large number of search terms may result in very long URLs"] else [])
  ⟨errors.length == 0, errors, warnings⟩

/-- Embedding of `SearchURLGenerator.getFieldOptions`: the static per-target
field tables as value-label pairs, empty for an unknown target. -/
def getFieldOptions (database : String) : List (String × String) :=
  if database == "ieee" then
    [("All Metadata", "All Metadata"), ("Title", "Title"), ("Abstract", "Abstract"),
     ("Authors", "Authors"), ("Keywords", "Keywords")]
  else if database == "scopus" then
    [("TITLE-ABS-KEY", "Title, Abstract & Keywords"), ("TITLE", "Title"), ("ABS", "Abstract"),
     ("AUTH", "Authors"), ("KEY", "Keywords")]
  else []

/-- The state of `UIManager` relevant to target switching: its form data and
the generator it drives. -/
structure UIState where
  formData : FormData
  generator : SearchURLGenerator

/-- State effect of `UIManager.updateFieldOptions`: iterating the new
target's field options, the canonical default (`All Metadata` or
`TITLE-ABS-KEY`) is selected and written to `formData.searchField`; the
`searchTerms` groups are not touched. -/
def updateFieldOptions (fd : FormData) (database : String) : FormData :=
  (getFieldOptions database).foldl
    (fun acc opt =>
      if opt.1 == "All Metadata" || opt.1 == "TITLE-ABS-KEY" then
        { acc with searchField := opt.1 }
      else acc)
    fd

/-- State effect of `UIManager.handleDatabaseChange`: records the new
database in the form data, forwards it to the generator via `setDatabase`,
and refreshes the field options. -/
def handleDatabaseChange (ui : UIState) (database : String) : UIState :=
  let fd := { ui.formData with database := database }
  let gen := setDatabase ui.generator database
  ⟨updateFieldOptions fd database, gen⟩

/-- State effect of `UIManager.handleFieldChange`: writes the selected field
to the form data and re-tags every existing group with it (this, not
`handleDatabaseChange`, is the only place groups are re-tagged). -/
def handleFieldChange (fd : FormData) (selected : String) : FormData :=
  { fd with searchField := selected,
            searchTerms := fd.searchTerms.map fun g => { g with searchField := selected } }

/-- The spec's IEEE atomic clause grammar: `("<field>":"<term>")`, applied to
an already-trimmed term. -/
def specIEEEAtom (field term : String) : String :=
  "(\"" ++ field ++ "\":\"" ++ term ++ "\")"

/-- The spec's Scopus atomic clause grammar: `<FIELD>("<term>")`, applied to
an already-trimmed term. -/
def specScopusAtom (field term : String) : String :=
  field ++ "(\"" ++ term ++ "\")"

/-- Definition following the spec's shared clause-building wording (§4.2),
for refinement comparison: trim each term, drop blanks, omit a group with no
remaining term, otherwise join its atomic clauses with the group's own
space-padded operator and wrap in parentheses. -/
def specGroupClause (atom : String → String → String) (g : TermGroup) : String :=
  if (((g.terms.map jsTrim).filter fun t => t != "")).isEmpty then ""
  else "(" ++ joinSep (" " ++ g.operator ++ " ")
    (((g.terms.map jsTrim).filter fun t => t != "").map (atom g.searchField)) ++ ")"

/-- Definition following the spec's cross-group wording, for refinement
comparison: the non-empty group clauses, in original order, joined with the
fixed literal token `AND`. -/
def specFullQuery (atom : String → String → String) (groups : List TermGroup) : String :=
  joinSep " AND " ((groups.map (specGroupClause atom)).filter fun s => s != "")

/-- Definition following the spec's Scopus serializer wording (§4.2), for
refinement comparison with `generateScopusURL`: the joined boolean expression
percent-encoded as a unit into `s`, the percent-encoded literal year clause
space-joined onto that same `s` value, and exactly the fixed parameters
`sort`, `src`, `sot`, `sdt`, `sl`, `origin`, `editSaveSearch` and `limit`. -/
def specScopusURL (fd : FormData) : String :=
  scopusBaseURL ++ "?" ++ paramsToString
    [("sort", "plf-f"), ("src", "s"), ("sot", "a"), ("sdt", "a"), ("sl", "211"),
     ("s", encodeURIComponent (specFullQuery specScopusAtom fd.searchTerms) ++ " " ++
       encodeURIComponent ("AND PUBYEAR > " ++ toString fd.startYear ++
         " AND PUBYEAR < " ++ toString (fd.endYear + 1))),
     ("origin", "searchadvanced"), ("editSaveSearch", ""),
     ("limit", toString fd.resultsPerPage)]

/-- The term group of the spec's Scenario 1. -/
def gC2 : TermGroup := ⟨"All Metadata", "OR", ["neural decoding", "brain decoding"]⟩

/-- The full form data of the spec's Scenario 1 (IEEE, years 2019 to 2026). -/
def fdC2 : FormData := ⟨"ieee", [gC2], 2019, 2026, "All Metadata", 50⟩

/-- A Scopus-tagged model used to exercise the dispatch of `generateURL`. -/
def fdC1 : FormData := ⟨"scopus", [⟨"TITLE-ABS-KEY", "OR", ["x"]⟩], 2020, 2024, "TITLE-ABS-KEY", 50⟩

/-- A model whose every term is blank after trimming. -/
def fdBlank : FormData := ⟨"ieee", [⟨"All Metadata", "OR", ["", "  "]⟩], 2020, 2024, "All Metadata", 50⟩

/-- UI state on the IEEE target with one group tagged `All Metadata`. -/
def uiIeee : UIState :=
  ⟨⟨"ieee", [⟨"All Metadata", "OR", ["x", ""]⟩], 2020, 2024, "All Metadata", 50⟩, ⟨"ieee"⟩⟩

/-- UI state on the Scopus target with one group tagged `TITLE-ABS-KEY`. -/
def uiScopus : UIState :=
  ⟨⟨"scopus", [⟨"TITLE-ABS-KEY", "OR", ["x", ""]⟩], 2020, 2024, "TITLE-ABS-KEY", 50⟩, ⟨"scopus"⟩⟩

theorem string_eq_empty_iff (s : String) : s = "" ↔ s.data = [] := by
  simpa using @String.ext_iff s ""

theorem append_ne_empty_left (a b : String) (h : a ≠ "") : a ++ b ≠ "" := by
  intro hc
  rw [string_eq_empty_iff, String.data_append, List.append_eq_nil] at hc
  exact h ((string_eq_empty_iff a).mpr hc.1)

theorem append_ne_empty_right (a b : String) (h : b ≠ "") : a ++ b ≠ "" := by
  intro hc
  rw [string_eq_empty_iff, String.data_append, List.append_eq_nil] at hc
  exact h ((string_eq_empty_iff b).mpr hc.2)

theorem joinSep_ne_empty (sep x : String) (xs : List String) (hx : x ≠ "") :
    joinSep sep (x :: xs) ≠ "" := by
  cases xs with
  | nil => simpa [joinSep] using hx
  | cons y ys =>
      show x ++ sep ++ joinSep sep (y :: ys) ≠ ""
      exact append_ne_empty_left _ _ (append_ne_empty_left _ _ hx)

theorem specIEEEAtom_ne_empty (f u : String) : specIEEEAtom f u ≠ "" :=
  append_ne_empty_right _ _ (by decide)

theorem specScopusAtom_ne_empty (f u : String) : specScopusAtom f u ≠ "" :=
  append_ne_empty_right _ _ (by decide)

theorem filter_map_trim (atom : String → String) (ts : List String) :
    (ts.filter fun t => jsTrim t != "").map (fun t => atom (jsTrim t)) =
      ((ts.map jsTrim).filter fun t => t != "").map atom := by
  induction ts with
  | nil => rfl
  | cons t ts ih =>
      cases h : (jsTrim t != "") <;>
        simp [List.filter_cons, h, ih]

theorem ieeeGroupClause_eq_spec (g : TermGroup) :
    ieeeGroupClause g = specGroupClause specIEEEAtom g := by
  unfold ieeeGroupClause specGroupClause
  have hmap : (g.terms.filter fun t => jsTrim t != "").map (ieeeTermClause g) =
      ((g.terms.map jsTrim).filter fun t => t != "").map (specIEEEAtom g.searchField) :=
    filter_map_trim (specIEEEAtom g.searchField) g.terms
  rw [hmap]
  cases hts : ((g.terms.map jsTrim).filter fun t => t != "") with
  | nil => simp [joinSep]
  | cons a rest =>
      have hne : joinSep (" " ++ g.operator ++ " ")
          ((a :: rest).map (specIEEEAtom g.searchField)) ≠ "" := by
        simpa using joinSep_ne_empty _ _ _ (specIEEEAtom_ne_empty g.searchField a)
      simp [List.isEmpty]
      intro hc
      exact absurd hc (by simpa using hne)

theorem scopusGroupClause_eq_spec (g : TermGroup) :
    scopusGroupClause g = specGroupClause specScopusAtom g := by
  unfold scopusGroupClause specGroupClause
  have hmap : (g.terms.filter fun t => jsTrim t != "").map (scopusTermClause g) =
      ((g.terms.map jsTrim).filter fun t => t != "").map (specScopusAtom g.searchField) :=
    filter_map_trim (specScopusAtom g.searchField) g.terms
  rw [hmap]
  cases hts : ((g.terms.map jsTrim).filter fun t => t != "") with
  | nil => simp [joinSep]
  | cons a rest =>
      have hne : joinSep (" " ++ g.operator ++ " ")
          ((a :: rest).map (specScopusAtom g.searchField)) ≠ "" := by
        simpa using joinSep_ne_empty _ _ _ (specScopusAtom_ne_empty g.searchField a)
      simp [List.isEmpty]
      intro hc
      exact absurd hc (by simpa using hne)

theorem ieeeFullQuery_eq_spec (sts : List TermGroup) :
    ieeeFullQuery sts = specFullQuery specIEEEAtom sts := by
  unfold ieeeFullQuery specFullQuery
  rw [List.map_congr_left fun g _ => ieeeGroupClause_eq_spec g]

theorem scopusFullQuery_eq_spec (sts : List TermGroup) :
    scopusFullQuery sts = specFullQuery specScopusAtom sts := by
  unfold scopusFullQuery specFullQuery
  rw [List.map_congr_left fun g _ => scopusGroupClause_eq_spec g]

theorem buildIEEEQueryText_eq (sts : List TermGroup) :
    buildIEEEQueryText sts = encodeURIComponent (ieeeFullQuery sts) := by
  unfold buildIEEEQueryText ieeeFullQuery
  cases h : ((sts.map ieeeGroupClause).filter fun s => s != "") <;> rfl

theorem buildScopusQuery_eq (sts : List TermGroup) :
    buildScopusQuery sts = encodeURIComponent (scopusFullQuery sts) := by
  unfold buildScopusQuery scopusFullQuery
  cases h : ((sts.map scopusGroupClause).filter fun s => s != "") <;> rfl

theorem scopusParams_eval (fd : FormData) :
    scopusParams fd =
      [("sort", "plf-f"), ("src", "s"), ("sot", "a"), ("sdt", "a"), ("sl", "211"),
       ("s", buildScopusQuery fd.searchTerms ++ " " ++ encodeURIComponent (scopusYearClause fd)),
       ("origin", "searchadvanced"), ("editSaveSearch", ""),
       ("limit", toString fd.resultsPerPage)] := rfl

theorem groupClause_blank (g : TermGroup) (h : ∀ t ∈ g.terms, jsTrim t = "") :
    ieeeGroupClause g = "" ∧ scopusGroupClause g = "" := by
  have hf : (g.terms.filter fun t => jsTrim t != "") = [] := by
    rw [List.filter_eq_nil_iff]
    intro a ha
    simp [h a ha]
  exact ⟨by simp [ieeeGroupClause, hf, joinSep], by simp [scopusGroupClause, hf, joinSep]⟩

theorem fullQuery_blank (sts : List TermGroup)
    (h : ∀ g ∈ sts, ∀ t ∈ g.terms, jsTrim t = "") :
    ieeeFullQuery sts = "" ∧ scopusFullQuery sts = "" := by
  have hi : ((sts.map ieeeGroupClause).filter fun s => s != "") = [] := by
    rw [List.filter_eq_nil_iff]
    intro s hs
    rw [List.mem_map] at hs
    obtain ⟨g, hg, rfl⟩ := hs
    simp [(groupClause_blank g (h g hg)).1]
  have hsc : ((sts.map scopusGroupClause).filter fun s => s != "") = [] := by
    rw [List.filter_eq_nil_iff]
    intro s hs
    rw [List.mem_map] at hs
    obtain ⟨g, hg, rfl⟩ := hs
    simp [(groupClause_blank g (h g hg)).2]
  exact ⟨by simp [ieeeFullQuery, hi, joinSep], by simp [scopusFullQuery, hsc, joinSep]⟩

theorem filter_cons_blank (t : String) (h : jsTrim t = "") (ts : List String) :
    ((t :: ts).filter fun u => jsTrim u != "") = ts.filter fun u => jsTrim u != "" := by
  simp [List.filter_cons, h]

theorem groupClause_drop_blank_terms (f op x : String) :
    ieeeGroupClause ⟨f, op, ["", "  ", x]⟩ = ieeeGroupClause ⟨f, op, [x]⟩ ∧
      scopusGroupClause ⟨f, op, ["", "  ", x]⟩ = scopusGroupClause ⟨f, op, [x]⟩ := by
  have h1 : jsTrim "" = "" := rfl
  have h2 : jsTrim "  " = "" := rfl
  have hfil : ((["", "  ", x] : List String).filter fun u => jsTrim u != "") =
      ([x] : List String).filter fun u => jsTrim u != "" := by
    rw [filter_cons_blank "" h1, filter_cons_blank "  " h2]
  exact ⟨by simp only [ieeeGroupClause, hfil]; rfl, by simp only [scopusGroupClause, hfil]; rfl⟩

theorem buildIEEE_middle_congr (pre post : List TermGroup) {g1 g2 : TermGroup}
    (h : ieeeGroupClause g1 = ieeeGroupClause g2) :
    buildIEEEQueryText (pre ++ [g1] ++ post) = buildIEEEQueryText (pre ++ [g2] ++ post) := by
  simp only [buildIEEEQueryText, List.map_append, List.map_cons, List.map_nil, h]

theorem buildScopus_middle_congr (pre post : List TermGroup) {g1 g2 : TermGroup}
    (h : scopusGroupClause g1 = scopusGroupClause g2) :
    buildScopusQuery (pre ++ [g1] ++ post) = buildScopusQuery (pre ++ [g2] ++ post) := by
  simp only [buildScopusQuery, List.map_append, List.map_cons, List.map_nil, h]

theorem buildIEEE_drop_group (pre post : List TermGroup) {gb : TermGroup}
    (h : ieeeGroupClause gb = "") :
    buildIEEEQueryText (pre ++ [gb] ++ post) = buildIEEEQueryText (pre ++ post) := by
  simp only [buildIEEEQueryText, List.map_append, List.map_cons, List.map_nil,
    List.filter_append, h]
  simp

theorem buildScopus_drop_group (pre post : List TermGroup) {gb : TermGroup}
    (h : scopusGroupClause gb = "") :
    buildScopusQuery (pre ++ [gb] ++ post) = buildScopusQuery (pre ++ post) := by
  simp only [buildScopusQuery, List.map_append, List.map_cons, List.map_nil,
    List.filter_append, h]
  simp

/-- C1 (counterexample): the claim is false on the code. After an earlier
`setDatabase "ieee"` call, `generateURL` applied to a model whose own
`database` field is `scopus` (`fdC1`) returns the IEEE URL, which differs
from the Scopus URL for the same model — the dispatch ignores the model's
target field. -/
theorem C1_counterexample :
    generateURL (setDatabase ⟨"scopus"⟩ "ieee") fdC1 = Except.ok (generateIEEEURL fdC1) ∧
      generateIEEEURL fdC1 ≠ generateScopusURL fdC1 := by
  exact ⟨rfl, by decide⟩

/-- C1 (amended): `generateURL` dispatches on the generator's stored
`currentDatabase` — the argument of the most recent `setDatabase` call — and
for a fixed stored database it is a pure function of the model snapshot: the
result after `setDatabase db` is independent of all earlier generator state,
with `ieee` giving the IEEE URL and `scopus` the Scopus URL. -/
theorem C1_dispatch_on_generator_state (g g' : SearchURLGenerator) (db : String)
    (fd : FormData) :
    generateURL (setDatabase g db) fd = generateURL (setDatabase g' db) fd ∧
      generateURL (setDatabase g "ieee") fd = Except.ok (generateIEEEURL fd) ∧
      generateURL (setDatabase g "scopus") fd = Except.ok (generateScopusURL fd) :=
  ⟨rfl, rfl, rfl⟩

/-- C2 (counterexample): for the Scenario 1 model, the pre-encoding query
fragment built by the code is not the spec's claimed string — the group is
wrapped in an extra pair of parentheses. -/
theorem C2_counterexample :
    ieeeFullQuery [gC2] ≠
      "(\"All Metadata\":\"neural decoding\") OR (\"All Metadata\":\"brain decoding\")" := by
  decide

/-- C2 (amended): for the Scenario 1 model (IEEE, one group, field
`All Metadata`, operator `OR`, terms `neural decoding` and `brain decoding`,
years 2019 to 2026) the pre-encoding query fragment is exactly
`(("All Metadata":"neural decoding") OR ("All Metadata":"brain decoding"))`
— with the group's wrapping parentheses — and the generated URL carries
the parameter `ranges=2019_2026_Year`. -/
theorem C2_scenario_fragment_and_ranges :
    ieeeFullQuery [gC2] =
        "((\"All Metadata\":\"neural decoding\") OR (\"All Metadata\":\"brain decoding\"))" ∧
      "&ranges=2019_2026_Year".data <:+ (generateIEEEURL fdC2).data := by
  exact ⟨rfl, by decide⟩

/-- C3 (code evaluation at the failing input): switching the database from
IEEE to Scopus resets the default field selection to `TITLE-ABS-KEY`, but the
existing group keeps its IEEE field `All Metadata` (and symmetrically for
Scopus to IEEE); only `handleFieldChange`, a separate user action, re-tags
the groups. -/
theorem C3_group_field_not_retagged :
    ((handleDatabaseChange uiIeee "scopus").formData.searchField = "TITLE-ABS-KEY" ∧
        (handleDatabaseChange uiIeee "scopus").formData.searchTerms.map TermGroup.searchField =
          ["All Metadata"]) ∧
      ((handleDatabaseChange uiScopus "ieee").formData.searchField = "All Metadata" ∧
        (handleDatabaseChange uiScopus "ieee").formData.searchTerms.map TermGroup.searchField =
          ["TITLE-ABS-KEY"]) ∧
      (handleFieldChange (handleDatabaseChange uiIeee "scopus").formData
          "TITLE-ABS-KEY").searchTerms.map TermGroup.searchField = ["TITLE-ABS-KEY"] :=
  ⟨⟨rfl, rfl⟩, ⟨rfl, rfl⟩, rfl⟩

/-- C4: for every model and both targets, the clause-building algorithm of
the code coincides with the spec's: terms trimmed, blanks dropped, one atomic
clause per remaining term, clauses joined with the group's own space-padded
operator and wrapped in parentheses, and the non-empty group clauses joined
in original order with the fixed literal token `AND`. -/
theorem C4_clause_building_refines_spec (sts : List TermGroup) :
    ieeeFullQuery sts = specFullQuery specIEEEAtom sts ∧
      scopusFullQuery sts = specFullQuery specScopusAtom sts :=
  ⟨ieeeFullQuery_eq_spec sts, scopusFullQuery_eq_spec sts⟩

/-- C5: for every model, the Scopus serializer produces exactly the URL the
spec describes: the percent-encoded boolean expression in parameter `s`, the
percent-encoded literal year clause `AND PUBYEAR > start AND PUBYEAR <
end+1` space-joined onto that same `s` value, and precisely the fixed
parameters `sort=plf-f`, `src=s`, `sot=a`, `sdt=a`, `sl=211`,
`origin=searchadvanced`, `editSaveSearch=` and `limit=resultsPerPage`. -/
theorem C5_scopus_url_assembly (fd : FormData) :
    generateScopusURL fd = specScopusURL fd := by
  unfold generateScopusURL specScopusURL
  rw [scopusParams_eval, buildScopusQuery_eq, scopusFullQuery_eq_spec]
  rfl

/-- C6: for every model, `validateFormData` evaluates all four rules and its
`isValid` flag is true exactly when the error list is empty; absence of any
non-blank term yields the content error, `startYear > endYear` yields the
year-ordering error, these are the only possible errors, the implausible
year range and the more-than-twenty-terms conditions yield exactly the two
warnings, and warnings never affect `isValid`. -/
theorem C6_validation_rules (fd : FormData) :
    ((validateFormData fd).isValid = true ↔ (validateFormData fd).errors = []) ∧
      ("At least one search term is required" ∈ (validateFormData fd).errors ↔
        ¬ ∃ g ∈ fd.searchTerms, ∃ t ∈ g.terms, jsTrim t ≠ "") ∧
      ("Start year must be less than or equal to end year" ∈ (validateFormData fd).errors ↔
        fd.startYear > fd.endYear) ∧
      (∀ e ∈ (validateFormData fd).errors,
        e = "At least one search term is required" ∨
          e = "Start year must be less than or equal to end year") ∧
      ("Year range should be between 1900 and 2030" ∈ (validateFormData fd).warnings ↔
        (fd.startYear < 1900 ∨ fd.endYear > 2030)) ∧
      ("Large number of search terms may result in very long URLs" ∈
          (validateFormData fd).warnings ↔ totalNonBlankTerms fd > 20) ∧
      (∀ w ∈ (validateFormData fd).warnings,
        w = "Year range should be between 1900 and 2030" ∨
          w = "Large number of search terms may result in very long URLs") := by
  have hP : (fd.searchTerms.any fun g => g.terms.any fun t => jsTrim t != "") = true ↔
      ∃ g ∈ fd.searchTerms, ∃ t ∈ g.terms, jsTrim t ≠ "" := by
    simp [List.any_eq_true]
  rcases Bool.eq_false_or_eq_true
      (fd.searchTerms.any fun g => g.terms.any fun t => jsTrim t != "") with hb | hb
  · have hp : ∃ g ∈ fd.searchTerms, ∃ t ∈ g.terms, jsTrim t ≠ "" := hP.mp hb
    by_cases h2 : fd.startYear > fd.endYear <;>
      by_cases h3 : fd.startYear < 1900 ∨ fd.endYear > 2030 <;>
        by_cases h4 : totalNonBlankTerms fd > 20 <;>
          simp [validateFormData, hb, hp, h2, h3, h4]
  · have hp : ¬ ∃ g ∈ fd.searchTerms, ∃ t ∈ g.terms, jsTrim t ≠ "" := by
      rw [← hP, hb]; simp
    by_cases h2 : fd.startYear > fd.endYear <;>
      by_cases h3 : fd.startYear < 1900 ∨ fd.endYear > 2030 <;>
        by_cases h4 : totalNonBlankTerms fd > 20 <;>
          simp [validateFormData, hb, hp, h2, h3, h4]

/-- C7: for every model and both targets, the boolean fragment is encoded
twice: the serializer percent-encodes the complete joined expression as a
single unit (`buildIEEEQueryText`/`buildScopusQuery` equal
`encodeURIComponent` of the whole pre-encoding fragment), and the parameter
serialization (`paramsToString`, which form-encodes every value) is then
applied to that already-encoded value inside the `queryText` and `s`
parameters; concretely, a double quote surfaces as `%2522`. -/
theorem C7_double_encoding (fd : FormData) :
    buildIEEEQueryText fd.searchTerms = encodeURIComponent (ieeeFullQuery fd.searchTerms) ∧
      buildScopusQuery fd.searchTerms = encodeURIComponent (scopusFullQuery fd.searchTerms) ∧
      generateIEEEURL fd = ieeeBaseURL ++ "?" ++ paramsToString
        [("action", "search"), ("newsearch", "true"), ("matchBoolean", "true"),
         ("queryText", encodeURIComponent (ieeeFullQuery fd.searchTerms)),
         ("ranges", toString fd.startYear ++ "_" ++ toString fd.endYear ++ "_Year")] ∧
      generateScopusURL fd = scopusBaseURL ++ "?" ++ paramsToString
        [("sort", "plf-f"), ("src", "s"), ("sot", "a"), ("sdt", "a"), ("sl", "211"),
         ("s", encodeURIComponent (scopusFullQuery fd.searchTerms) ++ " " ++
           encodeURIComponent (scopusYearClause fd)),
         ("origin", "searchadvanced"), ("editSaveSearch", ""),
         ("limit", toString fd.resultsPerPage)] ∧
      formEncode (encodeURIComponent "\"") = "%2522" := by
  refine ⟨buildIEEEQueryText_eq fd.searchTerms, buildScopusQuery_eq fd.searchTerms, ?_, ?_, rfl⟩
  · unfold generateIEEEURL ieeeParams
    rw [buildIEEEQueryText_eq]
  · unfold generateScopusURL
    rw [scopusParams_eval, buildScopusQuery_eq]

/-- C8: `generateURL` on a target outside the closed set returns the
explicit unsupported-target error and never a URL; on the two known targets
it always returns a URL; and a model in which every group filters down to
zero non-blank terms degrades to the empty query fragment for both targets
instead of emitting malformed parentheses. -/
theorem C8_unsupported_target_and_degradation (g : SearchURLGenerator) (fd : FormData) :
    (g.currentDatabase ≠ "ieee" → g.currentDatabase ≠ "scopus" →
        generateURL g fd = Except.error "Unsupported database type") ∧
      (g.currentDatabase = "ieee" → generateURL g fd = Except.ok (generateIEEEURL fd)) ∧
      (g.currentDatabase = "scopus" → generateURL g fd = Except.ok (generateScopusURL fd)) ∧
      ((∀ gr ∈ fd.searchTerms, ∀ t ∈ gr.terms, jsTrim t = "") →
        ieeeFullQuery fd.searchTerms = "" ∧ scopusFullQuery fd.searchTerms = "" ∧
          buildIEEEQueryText fd.searchTerms = "" ∧ buildScopusQuery fd.searchTerms = "") := by
  refine ⟨?_, ?_, ?_, ?_⟩
  · intro h1 h2
    simp [generateURL, h1, h2]
  · intro h1
    simp [generateURL, h1]
  · intro h2
    by_cases h1 : g.currentDatabase = "ieee"
    · rw [h1] at h2; exact absurd h2 (by decide)
    · simp [generateURL, h1, h2]
  · intro hblank
    obtain ⟨hi, hs⟩ := fullQuery_blank fd.searchTerms hblank
    refine ⟨hi, hs, ?_, ?_⟩
    · rw [buildIEEEQueryText_eq, hi]; rfl
    · rw [buildScopusQuery_eq, hs]; rfl

/-- C8 witness: at the concrete generator state `pubmed` and the all-blank
model `fdBlank`, the dispatch error and the empty-fragment degradation are
realized. -/
theorem C8_witness :
    generateURL ⟨"pubmed"⟩ fdBlank = Except.error "Unsupported database type" ∧
      buildIEEEQueryText fdBlank.searchTerms = "" ∧
      buildScopusQuery fdBlank.searchTerms = "" :=
  ⟨(C8_unsupported_target_and_degradation ⟨"pubmed"⟩ fdBlank).1 (by decide) (by decide),
   ((C8_unsupported_target_and_degradation ⟨"pubmed"⟩ fdBlank).2.2.2 (by decide)).2.2.1,
   ((C8_unsupported_target_and_degradation ⟨"pubmed"⟩ fdBlank).2.2.2 (by decide)).2.2.2⟩

/-- C9: for every model, both targets and every group position, a group with
terms `["", "  ", x]` compiles to the same URL as the same group with terms
`[x]`; and a group whose terms are all blank contributes nothing, so deleting
it leaves the compiled URL unchanged. -/
theorem C9_blank_term_filtering (pre post : List TermGroup) (f op x db sf : String)
    (sy ey : Int) (rp : Nat) :
    (generateIEEEURL ⟨db, pre ++ [⟨f, op, ["", "  ", x]⟩] ++ post, sy, ey, sf, rp⟩ =
        generateIEEEURL ⟨db, pre ++ [⟨f, op, [x]⟩] ++ post, sy, ey, sf, rp⟩) ∧
      (generateScopusURL ⟨db, pre ++ [⟨f, op, ["", "  ", x]⟩] ++ post, sy, ey, sf, rp⟩ =
        generateScopusURL ⟨db, pre ++ [⟨f, op, [x]⟩] ++ post, sy, ey, sf, rp⟩) ∧
      ∀ gb : TermGroup, (∀ t ∈ gb.terms, jsTrim t = "") →
        (generateIEEEURL ⟨db, pre ++ [gb] ++ post, sy, ey, sf, rp⟩ =
            generateIEEEURL ⟨db, pre ++ post, sy, ey, sf, rp⟩) ∧
          (generateScopusURL ⟨db, pre ++ [gb] ++ post, sy, ey, sf, rp⟩ =
            generateScopusURL ⟨db, pre ++ post, sy, ey, sf, rp⟩) := by
  obtain ⟨hieee, hscopus⟩ := groupClause_drop_blank_terms f op x
  refine ⟨?_, ?_, ?_⟩
  · unfold generateIEEEURL ieeeParams
    rw [buildIEEE_middle_congr pre post hieee]
  · unfold generateScopusURL
    rw [scopusParams_eval, scopusParams_eval, buildScopus_middle_congr pre post hscopus]
    rfl
  · intro gb hgb
    obtain ⟨hgi, hgs⟩ := groupClause_blank gb hgb
    constructor
    · unfold generateIEEEURL ieeeParams
      rw [buildIEEE_drop_group pre post hgi]
    · unfold generateScopusURL
      rw [scopusParams_eval, scopusParams_eval, buildScopus_drop_group pre post hgs]
      rfl

/-- C9 witness: concrete instances of blank-term filtering (IEEE) and
all-blank group deletion (Scopus). -/
theorem C9_witness :
    generateIEEEURL ⟨"ieee", [⟨"All Metadata", "OR", ["", "  ", "x"]⟩], 2020, 2024,
        "All Metadata", 50⟩ =
      generateIEEEURL ⟨"ieee", [⟨"All Metadata", "OR", ["x"]⟩], 2020, 2024,
        "All Metadata", 50⟩ ∧
    generateScopusURL ⟨"scopus", [⟨"TITLE-ABS-KEY", "OR", ["", "  "]⟩,
        ⟨"TITLE-ABS-KEY", "OR", ["y"]⟩], 2020, 2024, "TITLE-ABS-KEY", 50⟩ =
      generateScopusURL ⟨"scopus", [⟨"TITLE-ABS-KEY", "OR", ["y"]⟩], 2020, 2024,
        "TITLE-ABS-KEY", 50⟩ :=
  ⟨(C9_blank_term_filtering [] [] "All Metadata" "OR" "x" "ieee" "All Metadata" 2020 2024 50).1,
   ((C9_blank_term_filtering [] [⟨"TITLE-ABS-KEY", "OR", ["y"]⟩] "TITLE-ABS-KEY" "OR" "x"
       "scopus" "TITLE-ABS-KEY" 2020 2024 50).2.2
     ⟨"TITLE-ABS-KEY", "OR", ["", "  "]⟩ (by decide)).2⟩

/-- C10: two well-formed IEEE-target models that differ only in
`resultsPerPage` compile to identical URLs; the IEEE parameter list consists
of exactly `action`, `newsearch`, `matchBoolean`, `queryText` and `ranges`;
and only the Scopus serializer consumes `resultsPerPage`, as `limit`. -/
theorem C10_ieee_ignores_resultsPerPage (db sf : String) (sts : List TermGroup)
    (sy ey : Int) (r r' : Nat) :
    generateIEEEURL ⟨db, sts, sy, ey, sf, r⟩ = generateIEEEURL ⟨db, sts, sy, ey, sf, r'⟩ ∧
      (ieeeParams ⟨db, sts, sy, ey, sf, r⟩).map Prod.fst =
        ["action", "newsearch", "matchBoolean", "queryText", "ranges"] ∧
      getParam (scopusParams ⟨db, sts, sy, ey, sf, r⟩) "limit" = some (toString r) :=
  ⟨rfl, rfl, rfl⟩

/-- C6 witness: the validation characterization instantiated at the concrete
Scenario 1 model `fdC2`. -/
theorem C6_witness :
    ((validateFormData fdC2).isValid = true ↔ (validateFormData fdC2).errors = []) ∧
      ("Start year must be less than or equal to end year" ∈ (validateFormData fdC2).errors ↔
        fdC2.startYear > fdC2.endYear) :=
  ⟨(C6_validation_rules fdC2).1, (C6_validation_rules fdC2).2.2.1⟩
